import Mathlib

/-!
Shallow embedding of `src/train.py` of the
eggnet-equivariant-graph-of-graph-neural-network repository.

File I/O (pickle archives, the `pdb_to_affinity.txt` table, PepBDB metadata)
is modelled by environment records holding the parsed content; raised Python
exceptions are modelled by `Except.error`; a Python function that falls off
its end (implicit `return None`) is modelled by `Except.ok none`.
-/

namespace EggNet

/-- Python substring membership `needle in hay` on lists of characters:
true iff `needle` occurs as a contiguous infix of `hay`. -/
def containsSub (needle : List Char) : List Char → Bool
  | [] => needle.isEmpty
  | c :: t => needle.isPrefixOf (c :: t) || containsSub needle t

/-- Python `needle in hay` for strings. -/
def pyIn (needle hay : String) : Bool :=
  containsSub needle.data hay.data

/-- A residue featurizer object returned by `get_residue_featurizer`
(defined in `ppi.data_utils`, outside `train.py`); the claims only depend
on whether one is instantiated and for which name, so it is modelled as a
record of the name it was constructed from. -/
structure ResidueFeaturizer where
  name : String
deriving DecidableEq

/-- `get_residue_featurizer(residue_featurizer_name)` (external collaborator):
instantiates a residue featurizer for the given name. -/
def get_residue_featurizer (name : String) : ResidueFeaturizer :=
  ⟨name⟩

/-- Lines 134-141 of `train.py` (start of `get_datasets`): the
`residue_featurizer` local variable is `None` when the name contains the
substring `"grad"`, otherwise `get_residue_featurizer(name)`. -/
def initResidueFeaturizer (residue_featurizer_name : String) :
    Option ResidueFeaturizer :=
  if pyIn "grad" residue_featurizer_name then
    none
  else
    some (get_residue_featurizer residue_featurizer_name)

/-- The concrete complex-featurizer classes used by the PDBBind branches of
`get_datasets`. -/
inductive FeaturizerKind where
  | pdbbindComplex
  | heteroBigraphForEnergyModel
  | heteroBigraph
  | atomicBigraphGeometric
  | atomicBigraphPhysical
deriving DecidableEq

/-- A constructed complex featurizer: its class, the `residue_featurizer`
argument it was given, and the `return_physics` flag (defaulting to false as
in the source). -/
structure ComplexFeaturizer where
  kind : FeaturizerKind
  residue_featurizer : Option ResidueFeaturizer
  return_physics : Bool
deriving DecidableEq

/-- The dataset classes instantiated by the PDBBind branches of
`get_datasets`. -/
inductive DatasetKind where
  | pignetComplex
  | pignetHeteroBigraphComplexForEnergyModel
  | pignetHeteroBigraphComplex
  | pignetAtomicBigraphComplexEnergy
  | pignetAtomicBigraphComplex
deriving DecidableEq

/-- A constructed PDBBind-style dataset: the keys it was given and their
labels resolved from the id-to-affinity mapping at construction time,
together with the class, data directory and featurizer. -/
structure PDBBindDataset where
  kind : DatasetKind
  keys : List String
  labels : List ℚ
  data_dir : String
  featurizer : ComplexFeaturizer
deriving DecidableEq

/-- Resolve every key in the id-to-affinity mapping; `none` as soon as one
key is absent (a Python `KeyError`). -/
def resolveLabels (id_to_y : String → Option ℚ) : List String → Option (List ℚ)
  | [] => some []
  | k :: ks =>
    match id_to_y k with
    | none => none
    | some y =>
      match resolveLabels id_to_y ks with
      | none => none
      | some ys => some (y :: ys)

/-- Modelled from the spec: the `PIGNet*Dataset` constructors live in
`ppi/data.py`, which is not under `src/`; per the spec ("if an identifier in
a key archive is absent from the affinity mapping, the loader fails with a
lookup error rather than silently dropping it", "must raise a lookup error
at load time, not at training time"), dataset construction resolves every
key in the id-to-affinity mapping and raises a `KeyError` for an absent
identifier. -/
def mkPDBBindDataset (kind : DatasetKind) (keys : List String)
    (data_dir : String) (id_to_y : String → Option ℚ)
    (featurizer : ComplexFeaturizer) : Except String PDBBindDataset :=
  match resolveLabels id_to_y keys with
  | none => Except.error "KeyError"
  | some labels => Except.ok ⟨kind, keys, labels, data_dir, featurizer⟩

/-- An element of the parsed PepBDB data lists produced by
`prepare_pepbdb_data_list` (external collaborator); opaque record. -/
structure PepBDBEntry where
  tag : String
deriving DecidableEq

/-- A constructed `PepBDBComplexDataset` (class defined outside `train.py`;
the claims only depend on which data list it was built from). -/
structure PepBDBDataset where
  data_list : List PepBDBEntry
  preprocess : Bool
deriving DecidableEq

/-- Content of the pickle/metadata files read by the PepBDB branch, after
`prepare_pepbdb_data_list` joined structures with metadata. -/
structure PepBDBEnv where
  data_list_train : List PepBDBEntry
  data_list_test : List PepBDBEntry

/-- Content of the files read by the PDBBind branch:
`pdb_to_affinity.txt` as an association list of whitespace-split lines, and
the two key archives. -/
structure PDBBindEnv where
  affinity : List (String × ℚ)
  test_keys : List String
  train_keys : List String

/-- Lines 205-208 of `train.py`: the dict built from `pdb_to_affinity.txt`
(`{l[0]: float(l[1]) for l in lines}`; a later line for the same id
overwrites an earlier one, hence the reversed lookup). -/
def idToY (affinity : List (String × ℚ)) (k : String) : Option ℚ :=
  affinity.reverse.lookup k

/-- What `get_datasets` returns when it returns normally with datasets. -/
inductive GetDatasetsResult where
  | trainValTest (train valid test : PDBBindDataset)
  | testOnly (test : PDBBindDataset)
deriving DecidableEq

/-- `int(0.8 * n)` on a list length `n`: the float product rounds to a value
whose floor equals `⌊4n/5⌋` for every realistic length, modelled exactly as
natural floor division. -/
def nTrainSplit (n : ℕ) : ℕ :=
  4 * n / 5

/-- Lines 182-199 of `train.py` (PepBDB, `input_type == "complex"`): the
three `PepBDBComplexDataset`s constructed from the positional 80/20 split of
the train data list and from the test data list. -/
def pepbdbComplexDatasets (env : PepBDBEnv) :
    PepBDBDataset × PepBDBDataset × PepBDBDataset :=
  let n_train := nTrainSplit env.data_list_train.length
  (⟨env.data_list_train.take n_train, true⟩,
   ⟨env.data_list_train.drop n_train, true⟩,
   ⟨env.data_list_test, true⟩)

/-- One PDBBind branch of `get_datasets` (the four `input_type` branches are
textually identical up to the dataset class and featurizer): build the test
dataset from `test_keys`; if not `test_only`, load `train_keys`, split
positionally at `int(0.8 * len(train_keys))` and build train/validation
datasets, returning all three. -/
def pdbbindBranch (kind : DatasetKind) (featurizer : ComplexFeaturizer)
    (data_dir : String) (test_only : Bool) (env : PDBBindEnv) :
    Except String (Option GetDatasetsResult) :=
  match mkPDBBindDataset kind env.test_keys data_dir (idToY env.affinity)
      featurizer with
  | Except.error e => Except.error e
  | Except.ok test_dataset =>
    if test_only then
      Except.ok (some (GetDatasetsResult.testOnly test_dataset))
    else
      match mkPDBBindDataset kind
          (env.train_keys.take (nTrainSplit env.train_keys.length)) data_dir
          (idToY env.affinity) featurizer with
      | Except.error e => Except.error e
      | Except.ok train_dataset =>
        match mkPDBBindDataset kind
            (env.train_keys.drop (nTrainSplit env.train_keys.length)) data_dir
            (idToY env.affinity) featurizer with
        | Except.error e => Except.error e
        | Except.ok valid_dataset =>
          Except.ok (some (GetDatasetsResult.trainValTest train_dataset
            valid_dataset test_dataset))

/-- Lines 126-365 of `train.py`: `get_datasets`. The PepBDB `complex` branch
constructs its three datasets but the branch has no `return` statement, so
the function falls through and returns `None` (`Except.ok none`); the PepBDB
`polypeptides` branch raises `NotImplementedError`; other `input_type`
values under PepBDB fall through to `None`. PDBBind dispatches on
`input_type` (and `use_energy_decoder`) to one of the dataset classes and
raises `NotImplementedError` for unknown `input_type`. There is no branch
for any other dataset name: the function returns `None`. -/
def get_datasets (name : String) (input_type : String) (data_dir : String)
    (test_only : Bool) (residue_featurizer_name : String)
    (use_energy_decoder : Bool) (pepbdb_files : PepBDBEnv)
    (pdbbind_files : PDBBindEnv) : Except String (Option GetDatasetsResult) :=
  let residue_featurizer := initResidueFeaturizer residue_featurizer_name
  if name = "PepBDB" then
    if input_type = "complex" then
      let _datasets := pepbdbComplexDatasets pepbdb_files
      Except.ok none
    else if input_type = "polypeptides" then
      Except.error "NotImplementedError"
    else
      Except.ok none
  else if name = "PDBBind" then
    if input_type = "complex" then
      pdbbindBranch DatasetKind.pignetComplex
        ⟨FeaturizerKind.pdbbindComplex, residue_featurizer, false⟩
        data_dir test_only pdbbind_files
    else if input_type = "multistage-hetero" then
      if use_energy_decoder then
        pdbbindBranch DatasetKind.pignetHeteroBigraphComplexForEnergyModel
          ⟨FeaturizerKind.heteroBigraphForEnergyModel, residue_featurizer,
            false⟩
          data_dir test_only pdbbind_files
      else
        pdbbindBranch DatasetKind.pignetHeteroBigraphComplex
          ⟨FeaturizerKind.heteroBigraph, residue_featurizer, false⟩
          data_dir test_only pdbbind_files
    else if input_type = "multistage-geometric" then
      if use_energy_decoder then
        pdbbindBranch DatasetKind.pignetAtomicBigraphComplexEnergy
          ⟨FeaturizerKind.atomicBigraphGeometric, none, true⟩
          data_dir test_only pdbbind_files
      else
        pdbbindBranch DatasetKind.pignetAtomicBigraphComplex
          ⟨FeaturizerKind.atomicBigraphGeometric, none, false⟩
          data_dir test_only pdbbind_files
    else if input_type = "multistage-physical" then
      if use_energy_decoder then
        pdbbindBranch DatasetKind.pignetAtomicBigraphComplexEnergy
          ⟨FeaturizerKind.atomicBigraphPhysical, none, true⟩
          data_dir test_only pdbbind_files
      else
        pdbbindBranch DatasetKind.pignetAtomicBigraphComplex
          ⟨FeaturizerKind.atomicBigraphPhysical, none, false⟩
          data_dir test_only pdbbind_files
    else
      Except.error "NotImplementedError"
  else
    Except.ok none

/-! ### `init_model` (lines 45-123 of `train.py`) -/

/-- The node/edge scalar and vector channel counts observable on a DGL graph
(`g.ndata["node_s"].shape[1]`, `g.ndata["node_v"].shape[1]`,
`g.edata["edge_s"].shape[1]`, `g.edata["edge_v"].shape[1]`). -/
structure GraphShapes where
  node_s : ℕ
  node_v : ℕ
  edge_s : ℕ
  edge_v : ℕ
deriving DecidableEq

/-- A multi-stage sample datum: the dict with the three graphs. -/
structure MultiStageDatum where
  protein_graph : GraphShapes
  ligand_graph : GraphShapes
  complex_graph : GraphShapes
deriving DecidableEq

/-- A sample datum handed to `init_model`: a single graph for the
single-stage models or the three-graph dict for the multi-stage models. -/
inductive Datum where
  | single (g : GraphShapes)
  | multi (d : MultiStageDatum)
deriving DecidableEq

/-- The hyperparameter keyword arguments read by `init_model`. -/
structure Kwargs where
  node_h_dim : ℕ × ℕ
  edge_h_dim : ℕ × ℕ
  stage1_node_h_dim : ℕ × ℕ
  stage1_edge_h_dim : ℕ × ℕ
  stage2_node_h_dim : ℕ × ℕ
  stage2_edge_h_dim : ℕ × ℕ
deriving DecidableEq

/-- The four Lightning model constructors. -/
inductive ModelCtor where
  | litGVPModel
  | litHGVPModel
  | litMultiStageGVPModel
  | litMultiStageHGVPModel
deriving DecidableEq

/-- Lines 45-50 of `train.py`: the `MODEL_CONSTRUCTORS` dict; `none` models
a `KeyError` on lookup of an absent name. -/
def MODEL_CONSTRUCTORS (model_name : String) : Option ModelCtor :=
  if model_name = "gvp" then some ModelCtor.litGVPModel
  else if model_name = "hgvp" then some ModelCtor.litHGVPModel
  else if model_name = "multistage-gvp" then some ModelCtor.litMultiStageGVPModel
  else if model_name = "multistage-hgvp" then some ModelCtor.litMultiStageHGVPModel
  else none

/-- The constructor arguments passed to the multi-stage model constructors
at lines 107-115 of `train.py`. -/
structure MultiStageCtorArgs where
  protein_node_in_dim : ℕ × ℕ
  protein_edge_in_dim : ℕ × ℕ
  ligand_node_in_dim : ℕ × ℕ
  ligand_edge_in_dim : ℕ × ℕ
  complex_edge_in_dim : ℕ × ℕ
  num_outputs : ℕ
  kwargs : Kwargs
deriving DecidableEq

/-- Lines 81-115 of `train.py`: the dimensions `init_model` reads off the
multi-stage sample datum and passes to the constructor. Only the edge
dimensions of the complex graph are read (lines 101-105); no
`complex_node_in_dim` is computed or passed. -/
def msCtorArgs (d : MultiStageDatum) (num_outputs : ℕ) (kwargs : Kwargs) :
    MultiStageCtorArgs :=
  { protein_node_in_dim := (d.protein_graph.node_s, d.protein_graph.node_v)
    protein_edge_in_dim := (d.protein_graph.edge_s, d.protein_graph.edge_v)
    ligand_node_in_dim := (d.ligand_graph.node_s, d.ligand_graph.node_v)
    ligand_edge_in_dim := (d.ligand_graph.edge_s, d.ligand_graph.edge_v)
    complex_edge_in_dim := (d.complex_graph.edge_s, d.complex_graph.edge_v)
    num_outputs := num_outputs
    kwargs := kwargs }

/-- A constructed model: which constructor ran and with which arguments. -/
inductive Model where
  | singleStage (ctor : ModelCtor) (g : GraphShapes) (num_outputs : ℕ)
      (kwargs : Kwargs)
  | multiStage (ctor : ModelCtor) (args : MultiStageCtorArgs)
  | generic (ctor : ModelCtor) (in_feats : ℕ) (num_outputs : ℕ)
      (kwargs : Kwargs)
deriving DecidableEq

/-- Lines 53-123 of `train.py`: `init_model`. The single-stage branch passes
the whole sample graph; the multi-stage branch passes the inspected
dimensions (`msCtorArgs`); any other name reaches the final branch, whose
`MODEL_CONSTRUCTORS[model_name]` lookup raises `KeyError` (in Python the
callee is evaluated before the arguments). Accessing `ndata` on a dict
datum (or indexing a graph by string) raises, modelled as errors. -/
def init_model (datum : Datum) (model_name : String) (num_outputs : ℕ)
    (kwargs : Kwargs) : Except String Model :=
  if model_name = "gvp" ∨ model_name = "hgvp" then
    match datum with
    | Datum.single g =>
      match MODEL_CONSTRUCTORS model_name with
      | some ctor => Except.ok (Model.singleStage ctor g num_outputs kwargs)
      | none => Except.error "KeyError"
    | Datum.multi _ => Except.error "AttributeError"
  else if model_name = "multistage-gvp" ∨ model_name = "multistage-hgvp" then
    match datum with
    | Datum.multi d =>
      match MODEL_CONSTRUCTORS model_name with
      | some ctor =>
        Except.ok (Model.multiStage ctor (msCtorArgs d num_outputs kwargs))
      | none => Except.error "KeyError"
    | Datum.single _ => Except.error "TypeError"
  else
    match MODEL_CONSTRUCTORS model_name with
    | none => Except.error "KeyError"
    | some ctor =>
      match datum with
      | Datum.single g =>
        Except.ok (Model.generic ctor g.node_s num_outputs kwargs)
      | Datum.multi _ => Except.error "AttributeError"

/-! ### `evaluate_node_classification` (lines 368-396 of `train.py`) -/

/-- Truncation toward zero, the semantics of `.to(torch.int)` on a float
tensor. -/
def truncToInt (q : ℚ) : ℤ :=
  if 0 ≤ q then ⌊q⌋ else -⌊-q⌋

/-- Boolean-mask tensor indexing `xs[mask]`: keeps, in order, the entries of
`xs` at positions where `mask` is true. -/
def boolMaskSelect (xs : List ℚ) (mask : List Bool) : List ℚ :=
  ((xs.zip mask).filter (fun p => p.2)).map (fun p => p.1)

/-- Specification-side description: the positions a boolean mask marks
true, in increasing order. -/
def maskTrueIndices : List Bool → List ℕ
  | [] => []
  | m :: ms =>
    if m then 0 :: (maskTrueIndices ms).map (· + 1)
    else (maskTrueIndices ms).map (· + 1)

/-- One batch seen by `evaluate_node_classification`: per-node logits,
targets and the per-node mask (`batch.ndata["target"]`,
`batch.ndata["mask"]`). -/
structure ClsBatch where
  logits : List ℚ
  target : List ℚ
  mask : List Bool
deriving DecidableEq

/-- Lines 384-389 of `train.py`: the `(probs, targets)` pair a batch
contributes to each of the three metric accumulators (MCC, AUPR, AUROC all
receive the same pair): `torch.sigmoid(logits[train_mask])` and
`targets[train_mask].to(torch.int)`. The sigmoid (an external torch
function) is a parameter. -/
def evalClsBatchFeeds (sigmoid : ℚ → ℚ) (batch : ClsBatch) :
    List ℚ × List ℤ :=
  ((boolMaskSelect batch.logits batch.mask).map sigmoid,
   (boolMaskSelect batch.target batch.mask).map truncToInt)

/-- Lines 368-396 of `train.py`: the stream of per-batch
`(probs, targets)` pairs `evaluate_node_classification` feeds to the metric
accumulators over the whole loader. -/
def evaluate_node_classification (sigmoid : ℚ → ℚ)
    (batches : List ClsBatch) : List (List ℚ × List ℤ) :=
  batches.map (evalClsBatchFeeds sigmoid)

/-! ### `evaluate_graph_regression` (lines 398-441 of `train.py`) -/

/-- An opaque batched-graph object (the claims only depend on which graph is
handed to the model). -/
structure GraphObj where
  tag : ℕ
deriving DecidableEq

/-- The opaque `batch["sample"]` dict of the energy path. -/
structure SampleObj where
  tag : ℕ
deriving DecidableEq

/-- The opaque `batch["atom_to_residue"]` mapping of the hetero energy
path. -/
structure AtomToResidueObj where
  tag : ℕ
deriving DecidableEq

/-- A tensor of shape (batch, k) as a list of rows. -/
abbrev MatQ := List (List ℚ)

/-- One batch seen by `evaluate_graph_regression`. -/
structure RegrBatch where
  graph : GraphObj
  protein_graph : GraphObj
  ligand_graph : GraphObj
  complex_graph : GraphObj
  sample : SampleObj
  atom_to_residue : AtomToResidueObj
  g_targets : List ℚ

/-- The external model, as the forward functions the evaluation harness may
call: `model(batch["graph"])` for gvp, the two energy-decoder signatures
(with and without `atom_to_residue`), and the plain multi-stage forward.
Each returns what the harness destructures from the call. -/
structure RegrModel where
  forwardGvp : GraphObj → MatQ × MatQ
  forwardMsEnergyHetero :
    GraphObj → GraphObj → GraphObj → SampleObj → AtomToResidueObj → MatQ
  forwardMsEnergy : GraphObj → GraphObj → GraphObj → SampleObj → MatQ
  forwardMs : GraphObj → GraphObj → GraphObj → MatQ × MatQ

/-- `energies.sum(-1).unsqueeze(-1)` (line 423 of `train.py`): sum each row
along the last axis and reshape to one scalar per sample. -/
def sumLastUnsqueeze (energies : MatQ) : MatQ :=
  energies.map (fun row => [row.sum])

/-- The per-term energies the energy-decoder path obtains from the model
(lines 419-422 of `train.py`), depending on `is_hetero`. -/
def msEnergies (model : RegrModel) (is_hetero : Bool) (batch : RegrBatch) :
    MatQ :=
  if is_hetero then
    model.forwardMsEnergyHetero batch.protein_graph batch.ligand_graph
      batch.complex_graph batch.sample batch.atom_to_residue
  else
    model.forwardMsEnergy batch.protein_graph batch.ligand_graph
      batch.complex_graph batch.sample

/-- Lines 410-428 of `train.py`: the `preds` tensor computed for one batch,
by model name and flags; an unknown model name raises
`NotImplementedError`. -/
def evalRegrBatchPreds (model : RegrModel) (model_name : String)
    (use_energy_decoder is_hetero : Bool) (batch : RegrBatch) :
    Except String MatQ :=
  if model_name = "gvp" then
    Except.ok (model.forwardGvp batch.graph).2
  else if model_name = "multistage-gvp" then
    if use_energy_decoder then
      Except.ok (sumLastUnsqueeze (msEnergies model is_hetero batch))
    else
      Except.ok (model.forwardMs batch.protein_graph batch.ligand_graph
        batch.complex_graph).2
  else
    Except.error "NotImplementedError"

/-- Lines 398-441 of `train.py`: the stream of `(preds, targets)` pairs
`evaluate_graph_regression` feeds to the metric accumulators (R2, Spearman,
MSE all receive the same pair per batch). -/
def evaluate_graph_regression (model : RegrModel) (model_name : String)
    (use_energy_decoder is_hetero : Bool) :
    List RegrBatch → Except String (List (MatQ × List ℚ))
  | [] => Except.ok []
  | b :: rest =>
    match evalRegrBatchPreds model model_name use_energy_decoder is_hetero
        b with
    | Except.error e => Except.error e
    | Except.ok preds =>
      match evaluate_graph_regression model model_name use_energy_decoder
          is_hetero rest with
      | Except.error e => Except.error e
      | Except.ok feeds => Except.ok ((preds, b.g_targets) :: feeds)

/-! ### Sample inputs used by concrete witnesses -/

/-- A sample PDBBind environment with three resolvable identifiers. -/
def samplePdbEnv : PDBBindEnv :=
  ⟨[("1abc", 5), ("1xyz", 3), ("2pqr", 7)], ["1abc"], ["1xyz", "2pqr"]⟩

/-- A PDBBind environment whose train-key archive lists an identifier absent
from the affinity table. -/
def badPdbEnv : PDBBindEnv :=
  ⟨[("1abc", 5)], ["1abc"], ["1xyz"]⟩

/-- A sample PepBDB environment. -/
def samplePepEnv : PepBDBEnv :=
  ⟨[⟨"p1"⟩, ⟨"p2"⟩], [⟨"p3"⟩]⟩

/-- The featurizer the PDBBind `complex` branch builds for the default
residue featurizer name. -/
def sampleFeaturizer : ComplexFeaturizer :=
  ⟨FeaturizerKind.pdbbindComplex, some ⟨"MACCS"⟩, false⟩

/-- The test dataset `get_datasets` builds on `samplePdbEnv`. -/
def sampleTestDataset : PDBBindDataset :=
  ⟨DatasetKind.pignetComplex, ["1abc"], [5], "", sampleFeaturizer⟩

/-- The train dataset `get_datasets` builds on `samplePdbEnv`. -/
def sampleTrainDataset : PDBBindDataset :=
  ⟨DatasetKind.pignetComplex, ["1xyz"], [3], "", sampleFeaturizer⟩

/-- The validation dataset `get_datasets` builds on `samplePdbEnv`. -/
def sampleValidDataset : PDBBindDataset :=
  ⟨DatasetKind.pignetComplex, ["2pqr"], [7], "", sampleFeaturizer⟩

/-- Sample hyperparameters. -/
def sampleKwargs : Kwargs :=
  ⟨(1, 1), (1, 1), (1, 1), (1, 1), (1, 1), (1, 1)⟩

/-- A multi-stage sample datum. -/
def msDatumA : MultiStageDatum :=
  ⟨⟨1, 2, 3, 4⟩, ⟨5, 6, 7, 8⟩, ⟨9, 10, 11, 12⟩⟩

/-- The same datum with different node channel counts on the complex
graph only. -/
def msDatumB : MultiStageDatum :=
  ⟨⟨1, 2, 3, 4⟩, ⟨5, 6, 7, 8⟩, ⟨13, 14, 11, 12⟩⟩

/-- A sample classification batch with a masked-out middle position. -/
def sampleClsBatch : ClsBatch :=
  ⟨[1, 2, 3], [1, 0, 1], [true, false, true]⟩

/-! ### Helper lemmas -/

lemma mkPDBBindDataset_ok_keys {kind : DatasetKind} {ks : List String}
    {dd : String} {f : String → Option ℚ} {fz : ComplexFeaturizer}
    {d : PDBBindDataset} (h : mkPDBBindDataset kind ks dd f fz = Except.ok d) :
    d.keys = ks := by
  unfold mkPDBBindDataset at h
  cases hr : resolveLabels f ks with
  | none => rw [hr] at h; exact absurd h (by simp)
  | some labels => rw [hr] at h; cases h; rfl

lemma resolveLabels_eq_none {f : String → Option ℚ} {ks : List String}
    (h : ∃ k ∈ ks, f k = none) : resolveLabels f ks = none := by
  induction ks with
  | nil => rcases h with ⟨k, hk, _⟩; cases hk
  | cons a t ih =>
    rcases h with ⟨k, hk, hf⟩
    rcases List.mem_cons.mp hk with hk1 | hk2
    · subst hk1; simp only [resolveLabels]; rw [hf]
    · simp only [resolveLabels]
      cases f a with
      | none => rfl
      | some y => rw [ih ⟨k, hk2, hf⟩]

lemma mkPDBBindDataset_error_of_missing {kind : DatasetKind}
    {ks : List String} {dd : String} {f : String → Option ℚ}
    {fz : ComplexFeaturizer} (h : ∃ k ∈ ks, f k = none) :
    mkPDBBindDataset kind ks dd f fz = Except.error "KeyError" := by
  unfold mkPDBBindDataset
  rw [resolveLabels_eq_none h]

lemma pdbbindBranch_trainValTest {kind : DatasetKind}
    {fz : ComplexFeaturizer} {dd : String} {env : PDBBindEnv}
    {tr va te : PDBBindDataset}
    (h : pdbbindBranch kind fz dd false env =
      Except.ok (some (GetDatasetsResult.trainValTest tr va te))) :
    tr.keys = env.train_keys.take (nTrainSplit env.train_keys.length) ∧
    va.keys = env.train_keys.drop (nTrainSplit env.train_keys.length) := by
  unfold pdbbindBranch at h
  cases h1 : mkPDBBindDataset kind env.test_keys dd (idToY env.affinity) fz with
  | error e => rw [h1] at h; exact absurd h (by simp)
  | ok testd =>
    rw [h1] at h
    simp only [Bool.false_eq_true, if_false] at h
    cases h2 : mkPDBBindDataset kind
        (env.train_keys.take (nTrainSplit env.train_keys.length)) dd
        (idToY env.affinity) fz with
    | error e => rw [h2] at h; exact absurd h (by simp)
    | ok traind =>
      rw [h2] at h
      cases h3 : mkPDBBindDataset kind
          (env.train_keys.drop (nTrainSplit env.train_keys.length)) dd
          (idToY env.affinity) fz with
      | error e => rw [h3] at h; exact absurd h (by simp)
      | ok validd =>
        rw [h3] at h
        simp only [Except.ok.injEq, Option.some.injEq,
          GetDatasetsResult.trainValTest.injEq] at h
        obtain ⟨htr, hva, _⟩ := h
        subst htr; subst hva
        exact ⟨mkPDBBindDataset_ok_keys h2, mkPDBBindDataset_ok_keys h3⟩

lemma pdbbindBranch_error_of_missing {kind : DatasetKind}
    {fz : ComplexFeaturizer} {dd : String} {tOnly : Bool} {env : PDBBindEnv}
    (h : (∃ k ∈ env.test_keys, idToY env.affinity k = none) ∨
      (tOnly = false ∧ ∃ k ∈ env.train_keys, idToY env.affinity k = none)) :
    pdbbindBranch kind fz dd tOnly env = Except.error "KeyError" := by
  rcases h with hmiss | ⟨hto, k, hk, hmiss⟩
  · unfold pdbbindBranch
    rw [mkPDBBindDataset_error_of_missing hmiss]
  · subst hto
    unfold pdbbindBranch
    cases h1 : mkPDBBindDataset kind env.test_keys dd (idToY env.affinity) fz with
    | error e =>
      unfold mkPDBBindDataset at h1
      cases hr : resolveLabels (idToY env.affinity) env.test_keys with
      | none => rw [hr] at h1; cases h1; rfl
      | some labels => rw [hr] at h1; exact absurd h1 (by simp)
    | ok testd =>
      simp only [Bool.false_eq_true, if_false]
      have hsplit : k ∈ env.train_keys.take (nTrainSplit env.train_keys.length) ∨
          k ∈ env.train_keys.drop (nTrainSplit env.train_keys.length) := by
        rw [← List.mem_append, List.take_append_drop]
        exact hk
      rcases hsplit with hmem | hmem
      · rw [mkPDBBindDataset_error_of_missing ⟨k, hmem, hmiss⟩]
      · cases h2 : mkPDBBindDataset kind
            (env.train_keys.take (nTrainSplit env.train_keys.length)) dd
            (idToY env.affinity) fz with
        | error e =>
          unfold mkPDBBindDataset at h2
          cases hr : resolveLabels (idToY env.affinity)
              (env.train_keys.take (nTrainSplit env.train_keys.length)) with
          | none => rw [hr] at h2; cases h2; rfl
          | some labels => rw [hr] at h2; exact absurd h2 (by simp)
        | ok traind =>
          rw [mkPDBBindDataset_error_of_missing ⟨k, hmem, hmiss⟩]

/-- Reduction of `get_datasets` on the PDBBind `complex` branch. -/
lemma get_datasets_pdbbind_complex (dd : String) (tOnly : Bool) (rfn : String)
    (ue : Bool) (pe : PepBDBEnv) (pd : PDBBindEnv) :
    get_datasets "PDBBind" "complex" dd tOnly rfn ue pe pd =
      pdbbindBranch DatasetKind.pignetComplex
        ⟨FeaturizerKind.pdbbindComplex, initResidueFeaturizer rfn, false⟩
        dd tOnly pd := rfl

/-- Reduction of `get_datasets` on the PDBBind `multistage-hetero` branch. -/
lemma get_datasets_pdbbind_mshetero (dd : String) (tOnly : Bool) (rfn : String)
    (ue : Bool) (pe : PepBDBEnv) (pd : PDBBindEnv) :
    get_datasets "PDBBind" "multistage-hetero" dd tOnly rfn ue pe pd =
      if ue then
        pdbbindBranch DatasetKind.pignetHeteroBigraphComplexForEnergyModel
          ⟨FeaturizerKind.heteroBigraphForEnergyModel,
            initResidueFeaturizer rfn, false⟩ dd tOnly pd
      else
        pdbbindBranch DatasetKind.pignetHeteroBigraphComplex
          ⟨FeaturizerKind.heteroBigraph, initResidueFeaturizer rfn, false⟩
          dd tOnly pd := rfl

/-- Reduction of `get_datasets` on the PDBBind `multistage-geometric`
branch. -/
lemma get_datasets_pdbbind_msgeometric (dd : String) (tOnly : Bool)
    (rfn : String) (ue : Bool) (pe : PepBDBEnv) (pd : PDBBindEnv) :
    get_datasets "PDBBind" "multistage-geometric" dd tOnly rfn ue pe pd =
      if ue then
        pdbbindBranch DatasetKind.pignetAtomicBigraphComplexEnergy
          ⟨FeaturizerKind.atomicBigraphGeometric, none, true⟩ dd tOnly pd
      else
        pdbbindBranch DatasetKind.pignetAtomicBigraphComplex
          ⟨FeaturizerKind.atomicBigraphGeometric, none, false⟩ dd tOnly pd := rfl

/-- Reduction of `get_datasets` on the PDBBind `multistage-physical`
branch. -/
lemma get_datasets_pdbbind_msphysical (dd : String) (tOnly : Bool)
    (rfn : String) (ue : Bool) (pe : PepBDBEnv) (pd : PDBBindEnv) :
    get_datasets "PDBBind" "multistage-physical" dd tOnly rfn ue pe pd =
      if ue then
        pdbbindBranch DatasetKind.pignetAtomicBigraphComplexEnergy
          ⟨FeaturizerKind.atomicBigraphPhysical, none, true⟩ dd tOnly pd
      else
        pdbbindBranch DatasetKind.pignetAtomicBigraphComplex
          ⟨FeaturizerKind.atomicBigraphPhysical, none, false⟩ dd tOnly pd := rfl

/-- Reduction of `evalRegrBatchPreds` on the energy-decoder path. -/
lemma evalRegrBatchPreds_msgvp_energy (model : RegrModel) (is_hetero : Bool)
    (b : RegrBatch) :
    evalRegrBatchPreds model "multistage-gvp" true is_hetero b =
      Except.ok (sumLastUnsqueeze (msEnergies model is_hetero b)) := rfl

lemma boolMaskSelect_cons (x : ℚ) (xt : List ℚ) (m : Bool) (ms : List Bool) :
    boolMaskSelect (x :: xt) (m :: ms) =
      if m then x :: boolMaskSelect xt ms else boolMaskSelect xt ms := by
  unfold boolMaskSelect
  rw [List.zip_cons_cons, List.filter_cons]
  cases m <;> simp

lemma boolMaskSelect_eq_map_true_indices (xs : List ℚ) (mask : List Bool)
    (h : xs.length = mask.length) :
    boolMaskSelect xs mask =
      (maskTrueIndices mask).map (fun i => xs.getD i 0) := by
  induction mask generalizing xs with
  | nil =>
    cases xs with
    | nil => rfl
    | cons x xt => simp at h
  | cons m ms ih =>
    cases xs with
    | nil => simp at h
    | cons x xt =>
      have hlen : xt.length = ms.length := by simpa using h
      rw [boolMaskSelect_cons, ih xt hlen]
      cases m with
      | true =>
        simp only [maskTrueIndices, if_true, List.map_cons, List.map_map,
          List.getD_cons_zero]
        simp [Function.comp]
      | false =>
        simp only [maskTrueIndices, Bool.false_eq_true, if_false,
          List.map_map]
        simp [Function.comp]

/-! ### Claims -/

/-- C1: for `name="PDBBind"` with `test_only=False` and any valid
`input_type`, `get_datasets` splits the loaded train-key list positionally:
the train dataset is built from exactly the first `int(0.8*N)` keys and the
validation dataset from the remaining keys (no reshuffling), so the train
and validation key sets are disjoint (the keys being pairwise distinct) and
their union (as a concatenation) equals the loaded train-key list. -/
theorem c1_positional_split (input_type dd rfn : String) (ue : Bool)
    (pe : PepBDBEnv) (pd : PDBBindEnv) (tr va te : PDBBindDataset)
    (hit : input_type = "complex" ∨ input_type = "multistage-hetero" ∨
      input_type = "multistage-geometric" ∨ input_type = "multistage-physical")
    (h : get_datasets "PDBBind" input_type dd false rfn ue pe pd =
      Except.ok (some (GetDatasetsResult.trainValTest tr va te))) :
    tr.keys = pd.train_keys.take (nTrainSplit pd.train_keys.length) ∧
    va.keys = pd.train_keys.drop (nTrainSplit pd.train_keys.length) ∧
    tr.keys ++ va.keys = pd.train_keys ∧
    (pd.train_keys.Nodup → ∀ k ∈ tr.keys, k ∉ va.keys) := by
  have hkeys : tr.keys = pd.train_keys.take (nTrainSplit pd.train_keys.length) ∧
      va.keys = pd.train_keys.drop (nTrainSplit pd.train_keys.length) := by
    rcases hit with h1 | h1 | h1 | h1 <;> subst h1
    · rw [get_datasets_pdbbind_complex] at h
      exact pdbbindBranch_trainValTest h
    · rw [get_datasets_pdbbind_mshetero] at h
      cases ue <;>
        simp only [Bool.false_eq_true, if_false, if_true] at h <;>
        exact pdbbindBranch_trainValTest h
    · rw [get_datasets_pdbbind_msgeometric] at h
      cases ue <;>
        simp only [Bool.false_eq_true, if_false, if_true] at h <;>
        exact pdbbindBranch_trainValTest h
    · rw [get_datasets_pdbbind_msphysical] at h
      cases ue <;>
        simp only [Bool.false_eq_true, if_false, if_true] at h <;>
        exact pdbbindBranch_trainValTest h
  obtain ⟨h1, h2⟩ := hkeys
  refine ⟨h1, h2, ?_, ?_⟩
  · rw [h1, h2, List.take_append_drop]
  · intro hnd k hk1 hk2
    rw [h1] at hk1
    rw [h2] at hk2
    exact (List.disjoint_take_drop hnd le_rfl) hk1 hk2

/-- Witness for C1 on a concrete environment with three identifiers. -/
theorem c1_positional_split_witness :
    sampleTrainDataset.keys =
      samplePdbEnv.train_keys.take
        (nTrainSplit samplePdbEnv.train_keys.length) ∧
    sampleValidDataset.keys =
      samplePdbEnv.train_keys.drop
        (nTrainSplit samplePdbEnv.train_keys.length) ∧
    sampleTrainDataset.keys ++ sampleValidDataset.keys =
      samplePdbEnv.train_keys ∧
    (samplePdbEnv.train_keys.Nodup →
      ∀ k ∈ sampleTrainDataset.keys, k ∉ sampleValidDataset.keys) :=
  c1_positional_split "complex" "" "MACCS" false samplePepEnv samplePdbEnv
    sampleTrainDataset sampleValidDataset sampleTestDataset (Or.inl rfl) rfl

/-- C2: for `name="PDBBind"`, an identifier of a loaded key archive that is
absent from the id-to-affinity mapping makes `get_datasets` fail with a
lookup error (`KeyError`) at dataset-construction time. -/
theorem c2_missing_key_lookup_error (input_type dd rfn : String)
    (tOnly ue : Bool) (pe : PepBDBEnv) (pd : PDBBindEnv)
    (hit : input_type = "complex" ∨ input_type = "multistage-hetero" ∨
      input_type = "multistage-geometric" ∨ input_type = "multistage-physical")
    (hmiss : (∃ k ∈ pd.test_keys, idToY pd.affinity k = none) ∨
      (tOnly = false ∧ ∃ k ∈ pd.train_keys, idToY pd.affinity k = none)) :
    get_datasets "PDBBind" input_type dd tOnly rfn ue pe pd =
      Except.error "KeyError" := by
  rcases hit with h1 | h1 | h1 | h1 <;> subst h1
  · rw [get_datasets_pdbbind_complex]
    exact pdbbindBranch_error_of_missing hmiss
  · rw [get_datasets_pdbbind_mshetero]
    cases ue <;> simp only [Bool.false_eq_true, if_false, if_true] <;>
      exact pdbbindBranch_error_of_missing hmiss
  · rw [get_datasets_pdbbind_msgeometric]
    cases ue <;> simp only [Bool.false_eq_true, if_false, if_true] <;>
      exact pdbbindBranch_error_of_missing hmiss
  · rw [get_datasets_pdbbind_msphysical]
    cases ue <;> simp only [Bool.false_eq_true, if_false, if_true] <;>
      exact pdbbindBranch_error_of_missing hmiss

/-- Witness for C2: a train-key archive listing `"1xyz"`, absent from the
affinity table. -/
theorem c2_missing_key_lookup_error_witness :
    get_datasets "PDBBind" "complex" "" false "MACCS" false samplePepEnv
      badPdbEnv = Except.error "KeyError" :=
  c2_missing_key_lookup_error "complex" "" "MACCS" false false samplePepEnv
    badPdbEnv (Or.inl rfl) (Or.inr ⟨rfl, "1xyz", by simp [badPdbEnv], rfl⟩)

/-- C3: the residue featurizer is not instantiated exactly when the name
contains the substring `"grad"`; otherwise it is instantiated via
`get_residue_featurizer`. -/
theorem c3_grad_residue_featurizer (name : String) :
    (pyIn "grad" name = true → initResidueFeaturizer name = none) ∧
    (pyIn "grad" name = false →
      initResidueFeaturizer name = some (get_residue_featurizer name)) := by
  constructor <;> intro h <;> simp [initResidueFeaturizer, h]

/-- Witness for C3 at a gradient-signalling and a plain name. -/
theorem c3_grad_residue_featurizer_witness :
    initResidueFeaturizer "MACCS-grad" = none ∧
    initResidueFeaturizer "MACCS" = some (get_residue_featurizer "MACCS") :=
  ⟨(c3_grad_residue_featurizer "MACCS-grad").1 (by decide),
   (c3_grad_residue_featurizer "MACCS").2 (by decide)⟩

/-- C4: on the `multistage-gvp` energy-decoder path, the prediction compared
against the targets is, for every batch, the sum of the model's per-term
energy outputs along the last axis, reshaped to one scalar per sample. -/
theorem c4_energy_sum_preds (model : RegrModel) (is_hetero : Bool)
    (batches : List RegrBatch) :
    evaluate_graph_regression model "multistage-gvp" true is_hetero batches =
      Except.ok (batches.map (fun b =>
        ((msEnergies model is_hetero b).map (fun row => [row.sum]),
          b.g_targets))) := by
  induction batches with
  | nil => rfl
  | cons b bs ih =>
    simp only [evaluate_graph_regression, evalRegrBatchPreds_msgvp_energy,
      ih, List.map_cons]
    rfl

/-- C5: `evaluate_node_classification` feeds its three metric accumulators,
for every batch, exactly the sigmoid of the logits and the integer targets
at the mask-true positions: entries at masked-out positions are excluded. -/
theorem c5_mask_filtering (sigmoid : ℚ → ℚ) (b : ClsBatch)
    (hl : b.logits.length = b.mask.length)
    (ht : b.target.length = b.mask.length) :
    evalClsBatchFeeds sigmoid b =
      ((maskTrueIndices b.mask).map (fun i => sigmoid (b.logits.getD i 0)),
       (maskTrueIndices b.mask).map
         (fun i => truncToInt (b.target.getD i 0))) ∧
    ∀ batches : List ClsBatch, b ∈ batches →
      evalClsBatchFeeds sigmoid b ∈
        evaluate_node_classification sigmoid batches := by
  constructor
  · unfold evalClsBatchFeeds
    rw [boolMaskSelect_eq_map_true_indices _ _ hl,
      boolMaskSelect_eq_map_true_indices _ _ ht, List.map_map, List.map_map]
    rfl
  · intro batches hb
    exact List.mem_map_of_mem _ hb

/-- Witness for C5 on a batch whose middle position is masked out. -/
theorem c5_mask_filtering_witness :
    evalClsBatchFeeds (fun q => q) sampleClsBatch =
      ((maskTrueIndices sampleClsBatch.mask).map
        (fun i => (fun q : ℚ => q) (sampleClsBatch.logits.getD i 0)),
       (maskTrueIndices sampleClsBatch.mask).map
        (fun i => truncToInt (sampleClsBatch.target.getD i 0))) ∧
    ∀ batches : List ClsBatch, sampleClsBatch ∈ batches →
      evalClsBatchFeeds (fun q => q) sampleClsBatch ∈
        evaluate_node_classification (fun q => q) batches :=
  c5_mask_filtering (fun q => q) sampleClsBatch rfl rfl

/-- C6 counterexample: two multi-stage sample data differing only in the
complex graph's node scalar/vector channel counts yield the very same
constructed model, so those counts are not passed to the constructor: the
claim that all three branches' node and edge counts are passed is false. -/
theorem c6_counterexample :
    msDatumA.complex_graph.node_s ≠ msDatumB.complex_graph.node_s ∧
    msDatumA.complex_graph.node_v ≠ msDatumB.complex_graph.node_v ∧
    init_model (Datum.multi msDatumA) "multistage-gvp" 1 sampleKwargs =
      init_model (Datum.multi msDatumB) "multistage-gvp" 1 sampleKwargs :=
  ⟨by decide, by decide, rfl⟩

/-- C6 amended: `init_model` inspects and passes the protein and ligand
node/edge scalar and vector channel counts and the complex graph's edge
channel counts; the complex graph's node channel counts are neither
inspected nor passed. -/
theorem c6_amended_dims (d : MultiStageDatum) (n : ℕ) (kw : Kwargs)
    (model_name : String)
    (hname : model_name = "multistage-gvp" ∨
      model_name = "multistage-hgvp") :
    init_model (Datum.multi d) model_name n kw =
      Except.ok (Model.multiStage
        (if model_name = "multistage-gvp" then ModelCtor.litMultiStageGVPModel
          else ModelCtor.litMultiStageHGVPModel)
        { protein_node_in_dim := (d.protein_graph.node_s, d.protein_graph.node_v)
          protein_edge_in_dim := (d.protein_graph.edge_s, d.protein_graph.edge_v)
          ligand_node_in_dim := (d.ligand_graph.node_s, d.ligand_graph.node_v)
          ligand_edge_in_dim := (d.ligand_graph.edge_s, d.ligand_graph.edge_v)
          complex_edge_in_dim := (d.complex_graph.edge_s, d.complex_graph.edge_v)
          num_outputs := n
          kwargs := kw }) ∧
    ∀ ns nv, init_model (Datum.multi { d with complex_graph :=
        { d.complex_graph with node_s := ns, node_v := nv } })
        model_name n kw =
      init_model (Datum.multi d) model_name n kw := by
  rcases hname with h | h <;> subst h <;> exact ⟨rfl, fun ns nv => rfl⟩

/-- Witness for the amended C6 on a concrete datum. -/
theorem c6_amended_dims_witness :
    init_model (Datum.multi msDatumA) "multistage-gvp" 1 sampleKwargs =
      Except.ok (Model.multiStage ModelCtor.litMultiStageGVPModel
        { protein_node_in_dim := (1, 2)
          protein_edge_in_dim := (3, 4)
          ligand_node_in_dim := (5, 6)
          ligand_edge_in_dim := (7, 8)
          complex_edge_in_dim := (11, 12)
          num_outputs := 1
          kwargs := sampleKwargs }) ∧
    ∀ ns nv, init_model (Datum.multi { msDatumA with complex_graph :=
        { msDatumA.complex_graph with node_s := ns, node_v := nv } })
        "multistage-gvp" 1 sampleKwargs =
      init_model (Datum.multi msDatumA) "multistage-gvp" 1 sampleKwargs :=
  c6_amended_dims msDatumA 1 sampleKwargs "multistage-gvp" (Or.inl rfl)

/-- C7: any model name outside the four registered ones makes `init_model`
fail with the dict lookup error; no model is constructed. -/
theorem c7_unknown_model_name (datum : Datum) (model_name : String)
    (num_outputs : ℕ) (kw : Kwargs)
    (h1 : model_name ≠ "gvp") (h2 : model_name ≠ "hgvp")
    (h3 : model_name ≠ "multistage-gvp")
    (h4 : model_name ≠ "multistage-hgvp") :
    init_model datum model_name num_outputs kw = Except.error "KeyError" := by
  unfold init_model MODEL_CONSTRUCTORS
  simp [h1, h2, h3, h4]

/-- Witness for C7 at the unregistered name `"gat"`. -/
theorem c7_unknown_model_name_witness :
    init_model (Datum.single ⟨1, 1, 1, 1⟩) "gat" 1 sampleKwargs =
      Except.error "KeyError" :=
  c7_unknown_model_name (Datum.single ⟨1, 1, 1, 1⟩) "gat" 1 sampleKwargs
    (by decide) (by decide) (by decide) (by decide)

/-- C8 counterexample: for the dataset name `"CASF"` (neither `"PepBDB"`
nor `"PDBBind"`), `get_datasets` returns normally with `None` instead of
raising. -/
theorem c8_counterexample :
    get_datasets "CASF" "complex" "" false "MACCS" false ⟨[], []⟩
      ⟨[], [], []⟩ = Except.ok none := rfl

/-- C8 amended: for every dataset name other than `"PepBDB"` and
`"PDBBind"`, `get_datasets` raises nothing and silently returns `None`
(there is no else-branch); the failure surfaces only later in the caller. -/
theorem c8_amended_unknown_name_returns_none (name input_type dd : String)
    (tOnly : Bool) (rfn : String) (ue : Bool) (pe : PepBDBEnv)
    (pd : PDBBindEnv) (h1 : name ≠ "PepBDB") (h2 : name ≠ "PDBBind") :
    get_datasets name input_type dd tOnly rfn ue pe pd = Except.ok none := by
  unfold get_datasets
  simp [h1, h2]

/-- Witness for the amended C8 at the name `"Foo"`. -/
theorem c8_amended_unknown_name_returns_none_witness :
    get_datasets "Foo" "complex" "" false "MACCS" false samplePepEnv
      samplePdbEnv = Except.ok none :=
  c8_amended_unknown_name_returns_none "Foo" "complex" "" false "MACCS" false
    samplePepEnv samplePdbEnv (by decide) (by decide)

/-- C9 counterexample: `get_datasets` with `name="PepBDB"` and
`input_type="polypeptides"` raises `NotImplementedError` instead of
constructing datasets. -/
theorem c9_counterexample :
    get_datasets "PepBDB" "polypeptides" "" false "MACCS" false ⟨[], []⟩
      ⟨[], [], []⟩ = Except.error "NotImplementedError" := rfl

/-- C9 amended: `input_type="polypeptides"` raises `NotImplementedError`
under PepBDB; the remaining enumerated input types select a construction
(`complex` under PepBDB constructs but falls through to `None`; the four
PDBBind input types construct and return datasets). -/
theorem c9_amended_input_types :
    (∀ dd : String, ∀ tOnly : Bool, ∀ rfn : String, ∀ ue : Bool,
      ∀ pe : PepBDBEnv, ∀ pd : PDBBindEnv,
      get_datasets "PepBDB" "polypeptides" dd tOnly rfn ue pe pd =
        Except.error "NotImplementedError") ∧
    (∀ dd : String, ∀ tOnly : Bool, ∀ rfn : String, ∀ ue : Bool,
      ∀ pe : PepBDBEnv, ∀ pd : PDBBindEnv,
      get_datasets "PepBDB" "complex" dd tOnly rfn ue pe pd =
        Except.ok none) ∧
    (get_datasets "PDBBind" "complex" "" false "MACCS" false samplePepEnv
        samplePdbEnv =
      Except.ok (some (GetDatasetsResult.trainValTest sampleTrainDataset
        sampleValidDataset sampleTestDataset))) ∧
    (∀ ue : Bool, ∃ r, get_datasets "PDBBind" "multistage-hetero" "" false
      "MACCS" ue samplePepEnv samplePdbEnv = Except.ok (some r)) ∧
    (∀ ue : Bool, ∃ r, get_datasets "PDBBind" "multistage-geometric" "" false
      "MACCS" ue samplePepEnv samplePdbEnv = Except.ok (some r)) ∧
    (∀ ue : Bool, ∃ r, get_datasets "PDBBind" "multistage-physical" "" false
      "MACCS" ue samplePepEnv samplePdbEnv = Except.ok (some r)) := by
  refine ⟨fun dd tOnly rfn ue pe pd => rfl, fun dd tOnly rfn ue pe pd => rfl,
    rfl, ?_, ?_, ?_⟩ <;> intro ue <;> cases ue <;> exact ⟨_, rfl⟩

/-- C10: for `name="PepBDB"` with `input_type="complex"`, `get_datasets`
constructs the three datasets (positional 80/20 split of the train list,
plus the test list) but always returns `None`: the branch has no return
statement. -/
theorem c10_pepbdb_complex_always_none (dd : String) (tOnly : Bool)
    (rfn : String) (ue : Bool) (pe : PepBDBEnv) (pd : PDBBindEnv) :
    get_datasets "PepBDB" "complex" dd tOnly rfn ue pe pd = Except.ok none ∧
    (pepbdbComplexDatasets pe).1.data_list =
      pe.data_list_train.take (nTrainSplit pe.data_list_train.length) ∧
    (pepbdbComplexDatasets pe).2.1.data_list =
      pe.data_list_train.drop (nTrainSplit pe.data_list_train.length) ∧
    (pepbdbComplexDatasets pe).2.2.data_list = pe.data_list_test :=
  ⟨rfl, rfl, rfl, rfl⟩

end EggNet
